import Mathlib

/-
Verification model of tvanc/high-res-timeout (src/index.js).

The source is a single class `HighResTimeout extends EventEmitter` together
with process-wide static registry state (`_instances`, `_nextFrameId`,
`_tickTimestamp`).  We embed it shallowly:

* timestamps, durations and delays (JS numbers from performance.now()) are
  modelled as rationals `ℚ`;
* the static registry state is a `SysState`: a map from timer identities to
  their field records, the insertion-ordered instance set (a JS `Set`
  preserves insertion order and ignores duplicate adds), the polling flag
  (`!!this._nextFrameId`) and the shared `_tickTimestamp`;
* the completion promise is modelled by its single-settlement contract: a
  settle-once cell plus an identity tag (the constructor creates the one
  and only promise object; `resolve` after a settlement is a no-op);
* `emit` is modelled by returning the list of emitted events in order;
  event handlers perform no mutation except where a claim is about a
  mutating handler, which gets its own explicitly-inlined definition
  (`pollOneWithTickStop`);
* the recursion `_startPolling` → synchronous `poll` → `complete` →
  `_restart` → `_startPolling` is cut with an explicit fuel argument.
  Inside a polling pass `_nextFrameId` is set, so every nested
  `_startPolling` returns through its guard and the fuel branch is inert
  (lemma `startPollingRec_polling`); fuel `FUEL = 3` covers every
  synchronous nesting the source can perform.
-/

/-- Outcome of the completion promise: `_resolvePromise` fulfills, `_rejectPromise` rejects. -/
inductive Settlement where
  | fulfilled
  | rejected
deriving DecidableEq

/-- The promise created once in the constructor: an identity tag plus the
settle-once state of a JS promise. -/
structure PromiseState where
  promiseId : Nat
  settled : Option Settlement
deriving DecidableEq

/-- Source `this._resolvePromise()`: settles with fulfillment unless already settled. -/
def PromiseState.resolvePromise (p : PromiseState) : PromiseState :=
  match p.settled with
  | none => { p with settled := some Settlement.fulfilled }
  | some _ => p

/-- Source `this._rejectPromise()`: settles with rejection unless already settled. -/
def PromiseState.rejectPromise (p : PromiseState) : PromiseState :=
  match p.settled with
  | none => { p with settled := some Settlement.rejected }
  | some _ => p

/-- Per-instance fields of `HighResTimeout`.  `_startTime`/`_targetTime` are
undefined in JS before the first `start()`; the model initialises them to 0. -/
structure Timer where
  duration : ℚ
  «repeat» : Bool
  delay : ℚ
  startTime : ℚ
  targetTime : ℚ
  running : Bool
  promise : PromiseState
deriving DecidableEq

/-- Events emitted from a timer instance, tagged with the instance identity. -/
inductive Event where
  | tick (i : Nat)
  | stop (i : Nat)
  | start (i : Nat)
  | reset (i : Nat)
  | complete (i : Nat)
deriving DecidableEq

/-- The process-wide state: all timers, the static `_instances` set in
insertion order, `polling` (= `!!this._nextFrameId`) and `_tickTimestamp`. -/
structure SysState where
  timers : Nat → Timer
  instances : List Nat
  polling : Bool
  tickTimestamp : ℚ

namespace HighResTimeout

/-- Source `constructor(duration, repeat = false)`: `_delay = duration`,
`_running = false`, and the single promise is created unsettled. -/
def newTimer (duration : ℚ) (rpt : Bool) (pid : Nat) : Timer :=
  { duration := duration, «repeat» := rpt, delay := duration,
    startTime := 0, targetTime := 0, running := false,
    promise := { promiseId := pid, settled := none } }

/-- Apply a field update to the timer with identity `i`. -/
def updateTimer (s : SysState) (i : Nat) (f : Timer → Timer) : SysState :=
  { s with timers := fun j => if j = i then f (s.timers j) else s.timers j }

/-- Source `static _addInstance(timeout)`: `this._instances.add(timeout)`.
A JS `Set` ignores an add of a member already present. -/
def addInstance (s : SysState) (i : Nat) : SysState :=
  if i ∈ s.instances then s else { s with instances := s.instances ++ [i] }

/-- Source `static _removeInstance(instance)`: `this._instances.delete(instance)`
followed by `_stopPolling()` (cancel the frame and clear `_nextFrameId`)
when the set became empty. -/
def removeInstance (s : SysState) (i : Nat) : SysState :=
  let s1 := { s with instances := s.instances.erase i }
  if s1.instances = [] then { s1 with polling := false } else s1

/-- Source `Math.min` on rationals. -/
def mathMin (a b : ℚ) : ℚ := if a ≤ b then a else b

/-- Source `get progress()`: while running,
`Math.min((HighResTimeout._tickTimestamp - this._startTime) / this._duration, 1)`;
otherwise `(this._duration - this._delay) / this._duration`. -/
def progress (s : SysState) (i : Nat) : ℚ :=
  let t := s.timers i
  if t.running then mathMin ((s.tickTimestamp - t.startTime) / t.duration) 1
  else (t.duration - t.delay) / t.duration

/-- Source `set duration(duration)`: always sets `_duration` and `_delay` to the new
value; if running, recomputes `_delay = duration - (timestamp - _startTime)`
and `_targetTime = timestamp + _delay` at the current clock reading. -/
def setDuration (s : SysState) (i : Nat) (d now : ℚ) : SysState :=
  let s1 := updateTimer s i fun t => { t with duration := d, delay := d }
  if (s1.timers i).running then
    updateTimer s1 i fun t =>
      { t with delay := d - (now - t.startTime),
               targetTime := now + (d - (now - t.startTime)) }
  else s1

/-- Source `reset()`: `_delay = _duration`, `_targetTime = timestamp + _duration`,
and if running also `_startTime = timestamp`; emits `reset`. -/
def reset (s : SysState) (i : Nat) (now : ℚ) : SysState × List Event :=
  let s1 := updateTimer s i fun t =>
    { t with delay := t.duration, targetTime := now + t.duration }
  let s2 :=
    if (s1.timers i).running then updateTimer s1 i fun t => { t with startTime := now }
    else s1
  (s2, [Event.reset i])

/-- Source `stop()`: no-op unless running; otherwise
`_delay = _duration - (now - _startTime)`, deregister, `_running = false`,
reject the promise, emit `stop`. -/
def stop (s : SysState) (i : Nat) (now : ℚ) : SysState × List Event :=
  if (s.timers i).running then
    let s1 := updateTimer s i fun t => { t with delay := t.duration - (now - t.startTime) }
    let s2 := removeInstance s1 i
    let s3 := updateTimer s2 i fun t =>
      { t with running := false, promise := t.promise.rejectPromise }
    (s3, [Event.stop i])
  else (s, [])

mutual

/-- Source `static _startPolling()`: if `_nextFrameId` is set, do nothing; otherwise
run `poll(performanceDotNow())` synchronously (which also re-subscribes).
The fuel only bounds the nesting of synchronous passes; see the header note. -/
def startPollingRec : Nat → SysState → ℚ → SysState × List Event
  | 0, s, _ => (s, [])
  | Nat.succ n, s, now => if s.polling then (s, []) else pollPassRec n s now
termination_by n _ _ => (n, 0, 0)

/-- Source `_restart()`: `_startTime = _targetTime`, `_targetTime = _startTime + _duration`,
`_delay = _duration`, `_running = true`, then `_addInstance` and `_startPolling`.
Emits nothing of its own. -/
def restartRec (n : Nat) (s : SysState) (i : Nat) (now : ℚ) : SysState × List Event :=
  let s1 := updateTimer s i fun t =>
    { t with startTime := t.targetTime, targetTime := t.targetTime + t.duration,
             delay := t.duration, running := true }
  startPollingRec n (addInstance s1 i) now
termination_by (n, 1, 0)

/-- Source `complete()`: `_running = this.repeat`, resolve the promise, emit
`complete`, and if `this.repeat && this._running` (re-read after the emit,
since a `complete` handler may have called `stop()`) run `_restart()`. -/
def completeRec (n : Nat) (s : SysState) (i : Nat) (now : ℚ) : SysState × List Event :=
  let s1 := updateTimer s i fun t =>
    { t with running := t.«repeat», promise := t.promise.resolvePromise }
  let t1 := s1.timers i
  if t1.«repeat» ∧ t1.running then
    let r := restartRec n s1 i now
    (r.1, Event.complete i :: r.2)
  else (s1, [Event.complete i])
termination_by (n, 2, 0)

/-- The body of `poll` for one registered instance: emit `tick`, then if
`instance._running && pollingTimestamp >= instance._targetTime` invoke
`complete()`, and afterwards `_removeInstance` when `!instance._running`. -/
def pollOneRec (n : Nat) (s : SysState) (i : Nat) (ts : ℚ) : SysState × List Event :=
  let t := s.timers i
  if t.running ∧ t.targetTime ≤ ts then
    let r := completeRec n s i ts
    if (r.1.timers i).running then (r.1, Event.tick i :: r.2)
    else (removeInstance r.1 i, Event.tick i :: r.2)
  else (s, [Event.tick i])
termination_by (n, 3, 0)

/-- Source `this._instances.forEach(...)` over the snapshot taken at pass start.
With non-mutating handlers each step only deletes or re-adds the instance
it is processing, so iterating the snapshot agrees with JS live-set
iteration order. -/
def pollListRec (n : Nat) (s : SysState) (l : List Nat) (ts : ℚ) : SysState × List Event :=
  match l with
  | [] => (s, [])
  | i :: rest =>
    let r := pollOneRec n s i ts
    let r2 := pollListRec n r.1 rest ts
    (r2.1, r.2 ++ r2.2)
termination_by (n, 4, l.length)

/-- One invocation of `poll(pollingTimestamp)`: store `_tickTimestamp`,
re-subscribe (`_nextFrameId = requestAnimationFrame(poll)`), then sweep the
instance set. -/
def pollPassRec (n : Nat) (s : SysState) (ts : ℚ) : SysState × List Event :=
  let s1 : SysState := { s with tickTimestamp := ts, polling := true }
  pollListRec n s1 s1.instances ts
termination_by (n, 5, 0)

end

/-- Fuel covering every synchronous nesting of polling passes the source can
actually perform (a nested `_startPolling` always returns via its guard). -/
def FUEL : Nat := 3

/-- Source `start()`: no-op if running; otherwise `_startTime = now`,
`_targetTime = _startTime + _delay`, `_running = true`, `_addInstance`,
`_startPolling()` (which may run a synchronous pass), then emit `start`. -/
def start (s : SysState) (i : Nat) (now : ℚ) : SysState × List Event :=
  if (s.timers i).running then (s, [])
  else
    let s1 := updateTimer s i fun t =>
      { t with startTime := now, targetTime := now + t.delay, running := true }
    let s2 := addInstance s1 i
    let r := startPollingRec FUEL s2 now
    (r.1, r.2 ++ [Event.start i])

/-- The body of `poll` for one instance whose `tick` listener calls
`this.stop()` synchronously: the emit of `tick` runs the handler (so `stop`
executes, at clock reading `now`), after which the source re-reads
`instance._running` before the completion check. -/
def pollOneWithTickStop (n : Nat) (s : SysState) (i : Nat) (ts now : ℚ) :
    SysState × List Event :=
  let r0 := stop s i now
  let s0 := r0.1
  let t := s0.timers i
  if t.running ∧ t.targetTime ≤ ts then
    let r := completeRec n s0 i ts
    if (r.1.timers i).running then (r.1, (Event.tick i :: r0.2) ++ r.2)
    else (removeInstance r.1 i, (Event.tick i :: r0.2) ++ r.2)
  else (s0, Event.tick i :: r0.2)

/-- The public operations a caller (or the frame scheduler) can perform. -/
inductive Op where
  | start (i : Nat) (now : ℚ)
  | stop (i : Nat) (now : ℚ)
  | reset (i : Nat) (now : ℚ)
  | complete (i : Nat) (now : ℚ)
  | setDuration (i : Nat) (d now : ℚ)
  | framePass (ts : ℚ)

/-- Apply one operation.  A `framePass` is a frame-scheduler callback: it can
only fire while a subscription is active (`cancelAnimationFrame` prevents a
cancelled callback from running). -/
def applyOp (s : SysState) : Op → SysState × List Event
  | Op.start i now => start s i now
  | Op.stop i now => stop s i now
  | Op.reset i now => reset s i now
  | Op.complete i now => completeRec FUEL s i now
  | Op.setDuration i d now => (setDuration s i d now, [])
  | Op.framePass ts => if s.polling then pollPassRec FUEL s ts else (s, [])

/-- Run a sequence of operations, collecting all emitted events. -/
def runOps (s : SysState) : List Op → SysState × List Event
  | [] => (s, [])
  | op :: ops =>
    let r := applyOp s op
    let r2 := runOps r.1 ops
    (r2.1, r.2 ++ r2.2)

/-- The state at process start: no timer registered, no frame subscription.
(`_tickTimestamp` is undefined in JS before the first pass; the model uses 0,
and no claim below depends on that default.) -/
def initState (tm : Nat → Timer) : SysState :=
  { timers := tm, instances := [], polling := false, tickTimestamp := 0 }

end HighResTimeout

namespace HighResTimeout

@[simp] lemma updateTimer_instances (s : SysState) (i : Nat) (f : Timer → Timer) :
    (updateTimer s i f).instances = s.instances := rfl

@[simp] lemma updateTimer_polling (s : SysState) (i : Nat) (f : Timer → Timer) :
    (updateTimer s i f).polling = s.polling := rfl

@[simp] lemma updateTimer_tickTimestamp (s : SysState) (i : Nat) (f : Timer → Timer) :
    (updateTimer s i f).tickTimestamp = s.tickTimestamp := rfl

@[simp] lemma updateTimer_timers (s : SysState) (i : Nat) (f : Timer → Timer) (j : Nat) :
    (updateTimer s i f).timers j = if j = i then f (s.timers j) else s.timers j := rfl

@[simp] lemma addInstance_polling (s : SysState) (i : Nat) :
    (addInstance s i).polling = s.polling := by
  unfold addInstance; split <;> rfl

@[simp] lemma addInstance_timers (s : SysState) (i : Nat) :
    (addInstance s i).timers = s.timers := by
  unfold addInstance; split <;> rfl

@[simp] lemma addInstance_tickTimestamp (s : SysState) (i : Nat) :
    (addInstance s i).tickTimestamp = s.tickTimestamp := by
  unfold addInstance; split <;> rfl

lemma mem_addInstance_self (s : SysState) (i : Nat) : i ∈ (addInstance s i).instances := by
  unfold addInstance; split
  · assumption
  · simp

lemma mem_addInstance_of_mem (s : SysState) {j : Nat} (i : Nat) (h : j ∈ s.instances) :
    j ∈ (addInstance s i).instances := by
  unfold addInstance; split
  · exact h
  · simp [h]

lemma addInstance_ne_nil (s : SysState) (i : Nat) : (addInstance s i).instances ≠ [] := by
  intro hnil
  exact (List.ne_nil_of_mem (mem_addInstance_self s i)) hnil

lemma addInstance_nodup (s : SysState) (i : Nat) (h : s.instances.Nodup) :
    (addInstance s i).instances.Nodup := by
  unfold addInstance; split
  · exact h
  · next hmem =>
    show (s.instances ++ [i]).Nodup
    refine List.Nodup.append h (List.nodup_singleton i) ?_
    simp [List.disjoint_singleton, hmem]

@[simp] lemma removeInstance_timers (s : SysState) (i : Nat) :
    (removeInstance s i).timers = s.timers := by
  simp only [removeInstance]; split <;> rfl

@[simp] lemma removeInstance_tickTimestamp (s : SysState) (i : Nat) :
    (removeInstance s i).tickTimestamp = s.tickTimestamp := by
  simp only [removeInstance]; split <;> rfl

@[simp] lemma removeInstance_instances (s : SysState) (i : Nat) :
    (removeInstance s i).instances = s.instances.erase i := by
  simp only [removeInstance]; split <;> rfl

lemma removeInstance_nodup (s : SysState) (i : Nat) (h : s.instances.Nodup) :
    (removeInstance s i).instances.Nodup := by
  simp [List.Nodup.erase, h]

lemma not_mem_removeInstance (s : SysState) (i : Nat) (h : s.instances.Nodup) :
    i ∉ (removeInstance s i).instances := by
  simpa using h.not_mem_erase

lemma startPollingRec_polling (n : Nat) (s : SysState) (now : ℚ) (h : s.polling = true) :
    startPollingRec n s now = (s, []) := by
  cases n <;> simp [startPollingRec, h]

lemma completeRec_mem_events (n : Nat) (s : SysState) (i : Nat) (now : ℚ) :
    Event.complete i ∈ (completeRec n s i now).2 := by
  rw [completeRec]; split <;> simp

lemma pollOneRec_events_cons (n : Nat) (s : SysState) (i : Nat) (ts : ℚ) :
    ∃ tl, (pollOneRec n s i ts).2 = Event.tick i :: tl := by
  simp only [pollOneRec]; split
  · split <;> exact ⟨_, rfl⟩
  · exact ⟨[], rfl⟩

end HighResTimeout

namespace HighResTimeout

/-- C4: when the poller reaches the target time of a running repeating timer,
the drift-corrected restart sets `startTime` to the previous cycle's
`targetTime` (not the polling timestamp), sets `targetTime` to the new
`startTime + duration`, restores `delay = duration`, and keeps the timer
running and registered — so the intended end of cycle N+1 equals the
intended end of cycle N plus `duration`, independent of polling jitter. -/
theorem c4_restart_drift_corrected (n : Nat) (s : SysState) (i : Nat) (ts : ℚ)
    (hrun : (s.timers i).running = true) (hrep : (s.timers i).«repeat» = true)
    (hpoll : s.polling = true) (hts : (s.timers i).targetTime ≤ ts) :
    ((pollOneRec n s i ts).1.timers i).startTime = (s.timers i).targetTime ∧
    ((pollOneRec n s i ts).1.timers i).targetTime
      = (s.timers i).targetTime + (s.timers i).duration ∧
    ((pollOneRec n s i ts).1.timers i).delay = (s.timers i).duration ∧
    ((pollOneRec n s i ts).1.timers i).running = true ∧
    i ∈ (pollOneRec n s i ts).1.instances := by
  simp only [pollOneRec, completeRec, restartRec, updateTimer_timers, if_pos rfl,
    hrun, hrep, hts, and_self, if_true, le_refl]
  rw [startPollingRec_polling _ _ _ (by simp [hpoll])]
  simp [mem_addInstance_self]

end HighResTimeout

namespace HighResTimeout

/-- C8: `start()` is idempotent — on a timer that is already running it
returns self, changes nothing (`startTime`, `targetTime`, `delay`, the
registry) and emits no event, so a second consecutive `start()` contributes
no second `start` notification. -/
theorem c8_start_idempotent (s : SysState) (i : Nat) (now : ℚ)
    (hrun : (s.timers i).running = true) :
    start s i now = (s, []) := by
  simp [start, hrun]

/-- C1 (amended): the membership-iff-running invariant is maintained by the
poller: when the poller invokes `complete()` on a running non-repeating
timer (target time reached), the timer ends the pass deregistered with
`running = false`.  An external `complete()` call, by contrast, leaves the
timer in the registry (see `c1_counterexample`). -/
theorem c1_poller_complete_removes (n : Nat) (s : SysState) (i : Nat) (ts : ℚ)
    (hrun : (s.timers i).running = true) (hrep : (s.timers i).«repeat» = false)
    (hts : (s.timers i).targetTime ≤ ts) (hnd : s.instances.Nodup) :
    i ∉ (pollOneRec n s i ts).1.instances ∧
    ((pollOneRec n s i ts).1.timers i).running = false := by
  simp only [pollOneRec, completeRec, updateTimer_timers, if_pos rfl,
    hrun, hrep, hts, and_self, if_true, false_and, if_false,
    Bool.false_eq_true, removeInstance_timers, removeInstance_instances]
  simp [hnd.not_mem_erase]

/-- C5: in a polling pass over an instance whose `tick` listener calls
`stop()`, the `tick` notification comes first, the handler's `stop` takes
effect, and the completion logic of the same pass does not fire for that
instance even when the pass timestamp has reached `targetTime`: no
`complete` event is emitted and the promise ends rejected, not fulfilled. -/
theorem c5_tick_stop_prevents_completion (n : Nat) (s : SysState) (i : Nat) (ts now : ℚ)
    (hrun : (s.timers i).running = true)
    (hts : (s.timers i).targetTime ≤ ts)
    (hset : (s.timers i).promise.settled = none) :
    (pollOneWithTickStop n s i ts now).2 = [Event.tick i, Event.stop i] ∧
    Event.complete i ∉ (pollOneWithTickStop n s i ts now).2 ∧
    ((pollOneWithTickStop n s i ts now).1.timers i).running = false ∧
    ((pollOneWithTickStop n s i ts now).1.timers i).promise.settled
      = some Settlement.rejected := by
  simp only [pollOneWithTickStop, stop, hrun, if_true, updateTimer_timers, if_pos rfl,
    removeInstance_timers, Bool.false_eq_true, false_and, if_false]
  simp [PromiseState.rejectPromise, hset]

end HighResTimeout

namespace HighResTimeout

/-- C6: assigning `duration` while running recomputes `delay` as the new
duration minus the time already elapsed since `startTime` and `targetTime`
as `now + delay`, so a new duration smaller than the elapsed time puts
`targetTime` in the past and the next polling pass (any timestamp `ts ≥ now`)
fires the completion logic; assigning while idle just replaces `duration`
and `delay` with the new value. -/
theorem c6_duration_setter (n : Nat) (s : SysState) (i : Nat) (d now ts : ℚ) :
    ((s.timers i).running = true →
      ((setDuration s i d now).timers i).duration = d ∧
      ((setDuration s i d now).timers i).delay = d - (now - (s.timers i).startTime) ∧
      ((setDuration s i d now).timers i).targetTime
        = now + (d - (now - (s.timers i).startTime)) ∧
      (d < now - (s.timers i).startTime → now ≤ ts →
        Event.complete i ∈ (pollOneRec n (setDuration s i d now) i ts).2)) ∧
    ((s.timers i).running = false →
      (setDuration s i d now).timers i = { s.timers i with duration := d, delay := d }) := by
  constructor
  · intro hrun
    have hfields : (setDuration s i d now).timers i =
        { s.timers i with duration := d,
                          delay := d - (now - (s.timers i).startTime),
                          targetTime := now + (d - (now - (s.timers i).startTime)) } := by
      simp [setDuration, hrun]
    refine ⟨by rw [hfields], by rw [hfields], by rw [hfields], ?_⟩
    intro hlt hnow
    have hguard : ((setDuration s i d now).timers i).running = true ∧
        ((setDuration s i d now).timers i).targetTime ≤ ts := by
      rw [hfields]
      exact ⟨hrun, by simpa using le_trans (by linarith) hnow⟩
    simp only [pollOneRec, hguard.1, hguard.2, and_self, if_true]
    split <;> exact List.mem_cons_of_mem _ (completeRec_mem_events _ _ _ _)
  · intro hidle
    simp [setDuration, hidle]

/-- C10: when `start()` is called while the poller is inactive and the
registry is empty, the synchronous initial polling pass inside
`_startPolling()` emits the timer's `tick` before `start()` emits its own
`start` notification: the emitted sequence begins with `tick` and ends with
`start`, with the `tick` strictly earlier. -/
theorem c10_first_tick_before_start (s : SysState) (i : Nat) (now : ℚ)
    (hpoll : s.polling = false) (hempty : s.instances = [])
    (hidle : (s.timers i).running = false) :
    (start s i now).2.head? = some (Event.tick i) ∧
    (start s i now).2.getLast? = some (Event.start i) ∧
    2 ≤ (start s i now).2.length := by
  have hshape : ∃ tl, (start s i now).2 = Event.tick i :: (tl ++ [Event.start i]) := by
    simp only [start, hidle, Bool.false_eq_true, if_false, FUEL, startPollingRec, hpoll,
      addInstance_polling, updateTimer_polling, pollPassRec]
    have hinst : (addInstance (updateTimer s i fun t =>
        { t with startTime := now, targetTime := now + t.delay, running := true }) i).instances
        = [i] := by
      simp [addInstance, hempty]
    rw [hinst]
    simp only [pollListRec]
    obtain ⟨tl, htl⟩ := pollOneRec_events_cons 2 _ i now
    rw [htl]
    exact ⟨tl, by simp⟩
  obtain ⟨tl, htl⟩ := hshape
  rw [htl]
  refine ⟨rfl, ?_, by simp⟩
  rw [show Event.tick i :: (tl ++ [Event.start i])
      = (Event.tick i :: tl) ++ [Event.start i] by simp]
  rw [List.getLast?_concat]

end HighResTimeout

namespace HighResTimeout

/-- A concrete timer for witnesses: duration 50, started at time 0, so
`targetTime = 50`, promise unsettled. -/
def witTimer (rpt : Bool) : Timer :=
  { duration := 50, «repeat» := rpt, delay := 50, startTime := 0, targetTime := 50,
    running := true, promise := { promiseId := 0, settled := none } }

/-- A concrete running system state for witnesses: one registered timer,
poller active, last pass at time 0. -/
def witState (rpt : Bool) : SysState :=
  { timers := fun _ => witTimer rpt, instances := [0], polling := true, tickTimestamp := 0 }

/-- A concrete idle initial state for witnesses. -/
def witIdle : SysState := initState fun j => newTimer 50 false j

/-- Witness for C4: the repeating timer of `witState true` polled at time 60. -/
theorem c4_witness :
    ((witState true).timers 0).targetTime ≤ 60 ∧
    (((pollOneRec FUEL (witState true) 0 60).1.timers 0).startTime
        = ((witState true).timers 0).targetTime ∧
     ((pollOneRec FUEL (witState true) 0 60).1.timers 0).targetTime
        = ((witState true).timers 0).targetTime + ((witState true).timers 0).duration ∧
     ((pollOneRec FUEL (witState true) 0 60).1.timers 0).delay
        = ((witState true).timers 0).duration ∧
     ((pollOneRec FUEL (witState true) 0 60).1.timers 0).running = true ∧
     0 ∈ (pollOneRec FUEL (witState true) 0 60).1.instances) :=
  ⟨by decide, c4_restart_drift_corrected FUEL (witState true) 0 60 rfl rfl rfl (by decide)⟩

/-- Witness for C1's amended theorem: the non-repeating timer of
`witState false` polled at time 60. -/
theorem c1_witness :
    (witState false).instances.Nodup ∧
    (0 ∉ (pollOneRec FUEL (witState false) 0 60).1.instances ∧
     ((pollOneRec FUEL (witState false) 0 60).1.timers 0).running = false) :=
  ⟨by decide,
   c1_poller_complete_removes FUEL (witState false) 0 60 rfl rfl (by decide) (by decide)⟩

/-- Witness for C5: pass timestamp 60 (past the target 50), handler stop at 55. -/
theorem c5_witness :
    ((witState false).timers 0).promise.settled = none ∧
    ((pollOneWithTickStop FUEL (witState false) 0 60 55).2 = [Event.tick 0, Event.stop 0] ∧
     Event.complete 0 ∉ (pollOneWithTickStop FUEL (witState false) 0 60 55).2 ∧
     ((pollOneWithTickStop FUEL (witState false) 0 60 55).1.timers 0).running = false ∧
     ((pollOneWithTickStop FUEL (witState false) 0 60 55).1.timers 0).promise.settled
       = some Settlement.rejected) :=
  ⟨rfl, c5_tick_stop_prevents_completion FUEL (witState false) 0 60 55 rfl (by decide) rfl⟩

/-- Witness for C6: new duration 10 assigned at time 20 (elapsed 20), next
pass at time 30. -/
theorem c6_witness :
    ((witState false).timers 0).running = true ∧
    (((setDuration (witState false) 0 10 20).timers 0).duration = 10 ∧
     ((setDuration (witState false) 0 10 20).timers 0).delay
       = 10 - (20 - ((witState false).timers 0).startTime) ∧
     ((setDuration (witState false) 0 10 20).timers 0).targetTime
       = 20 + (10 - (20 - ((witState false).timers 0).startTime)) ∧
     Event.complete 0 ∈ (pollOneRec FUEL (setDuration (witState false) 0 10 20) 0 30).2) := by
  have h := (c6_duration_setter FUEL (witState false) 0 10 20 30).1 rfl
  exact ⟨rfl, h.1, h.2.1, h.2.2.1,
    h.2.2.2 (by simpa [witState, witTimer] using (by decide : (10 : ℚ) < 20)) (by decide)⟩

/-- Witness for C8: a second `start()` on the already-running `witState false`. -/
theorem c8_witness :
    ((witState false).timers 0).running = true ∧
    start (witState false) 0 10 = (witState false, []) :=
  ⟨rfl, c8_start_idempotent (witState false) 0 10 rfl⟩

/-- Witness for C10: the first `start()` from the pristine state. -/
theorem c10_witness :
    witIdle.polling = false ∧
    ((start witIdle 0 0).2.head? = some (Event.tick 0) ∧
     (start witIdle 0 0).2.getLast? = some (Event.start 0) ∧
     2 ≤ (start witIdle 0 0).2.length) :=
  ⟨rfl, c10_first_tick_before_start witIdle 0 0 rfl rfl rfl⟩

end HighResTimeout

namespace HighResTimeout

/-- C1 counterexample: a timer with duration 50 is started at time 0 and
`complete()` is invoked externally at time 10 (before the target).  The code
sets `running = false` but never deregisters: the timer is still a registry
member, refuting "after complete() is invoked (externally or by the poller)
on a running non-repeating timer, the timer is no longer a registry member". -/
theorem c1_counterexample :
    ((runOps (initState fun j => newTimer 50 false j)
        [Op.start 0 0, Op.complete 0 10]).1.timers 0).running = false ∧
    0 ∈ (runOps (initState fun j => newTimer 50 false j)
        [Op.start 0 0, Op.complete 0 10]).1.instances := by
  norm_num [runOps, applyOp, start, initState, newTimer, updateTimer, addInstance, FUEL,
    startPollingRec, pollPassRec, pollListRec, pollOneRec, completeRec, restartRec,
    removeInstance, PromiseState.resolvePromise]

end HighResTimeout

namespace HighResTimeout

/-- C2 failing input: timer 0 (duration 50) is started at time 0, which runs
the synchronous pass and sets `_tickTimestamp = 0`; timer 1 (duration 50) is
started at time 5, with the poller already active, so no new pass runs
before the next frame.  Reading timer 1's progress while it is running
yields `(0 - 5)/50 = -1/10 < 0`, refuting `0 ≤ progress` (and the code's own
docstring, which promises a float between 0 and 1). -/
theorem c2_progress_negative :
    ((runOps (initState fun j => newTimer 50 false j)
        [Op.start 0 0, Op.start 1 5]).1.timers 1).running = true ∧
    progress (runOps (initState fun j => newTimer 50 false j)
        [Op.start 0 0, Op.start 1 5]).1 1 = -(1/10) ∧
    (-(1/10) : ℚ) < 0 := by
  norm_num [runOps, applyOp, start, initState, newTimer, updateTimer, addInstance, FUEL,
    startPollingRec, pollPassRec, pollListRec, pollOneRec, completeRec, restartRec,
    removeInstance, progress, mathMin]

/-- C3 failing input: duration 100; `start()` at 0, `stop()` at 75 (delay
becomes 25), `start()` again at 100 (target 125), `stop()` at 110.  The code
stores `delay = duration - (now - startTime) = 90`, not the remaining
`targetTime - now() = 125 - 110 = 15` the claim (and the stop() docstring's
resume-from-remainder promise) requires. -/
theorem c3_stop_delay_not_remaining :
    ((runOps (initState fun j => newTimer 100 false j)
        [Op.start 0 0, Op.stop 0 75, Op.start 0 100, Op.stop 0 110]).1.timers 0).delay = 90 ∧
    ((runOps (initState fun j => newTimer 100 false j)
        [Op.start 0 0, Op.stop 0 75, Op.start 0 100, Op.stop 0 110]).1.timers 0).targetTime
      = 125 ∧
    (90 : ℚ) ≠ 125 - 110 := by
  norm_num [runOps, applyOp, start, stop, initState, newTimer, updateTimer, addInstance, FUEL,
    startPollingRec, pollPassRec, pollListRec, pollOneRec, completeRec, restartRec,
    removeInstance, PromiseState.rejectPromise]

/-- C7 counterexample: with a single running non-repeating timer, an external
`complete()` leaves the timer registered (`running = false` but still the
sole member), and the poller subscription stays active — refuting "polling
stops ... by non-repeating completion (including completion forced
externally via complete())". -/
theorem c7_counterexample :
    (runOps (initState fun j => newTimer 50 false j)
        [Op.start 0 0, Op.complete 0 10]).1.polling = true ∧
    (runOps (initState fun j => newTimer 50 false j)
        [Op.start 0 0, Op.complete 0 10]).1.instances = [0] ∧
    ((runOps (initState fun j => newTimer 50 false j)
        [Op.start 0 0, Op.complete 0 10]).1.timers 0).running = false := by
  norm_num [runOps, applyOp, start, initState, newTimer, updateTimer, addInstance, FUEL,
    startPollingRec, pollPassRec, pollListRec, pollOneRec, completeRec, restartRec,
    removeInstance, PromiseState.resolvePromise]

end HighResTimeout

namespace HighResTimeout

/-- The registry/poller invariant: the frame subscription is active iff the
instance set is non-empty; plus the set discipline (no duplicates). -/
def RegInv (s : SysState) : Prop :=
  (s.polling = true ↔ s.instances ≠ []) ∧ s.instances.Nodup

lemma updateTimer_regInv (s : SysState) (i : Nat) (f : Timer → Timer) :
    RegInv (updateTimer s i f) ↔ RegInv s := Iff.rfl

lemma addInstance_of_mem (s : SysState) (i : Nat) (h : i ∈ s.instances) :
    addInstance s i = s := by
  simp [addInstance, h]

lemma removeInstance_regInv (s : SysState) (i : Nat) (h : RegInv s) :
    RegInv (removeInstance s i) := by
  obtain ⟨hiff, hnd⟩ := h
  refine ⟨?_, by simpa using hnd.erase i⟩
  simp only [removeInstance]
  split
  · next heq => simp [heq]
  · next hne =>
    have : s.instances ≠ [] := fun hnil => hne (by simp [hnil])
    exact ⟨fun _ => hne, fun _ => hiff.mpr this⟩

lemma pollOneRec_regInv (n : Nat) (s : SysState) (i : Nat) (ts : ℚ)
    (hp : s.polling = true) (hmem : i ∈ s.instances) (hnd : s.instances.Nodup) :
    RegInv ((pollOneRec n s i ts).1) ∧
    ∀ j, j ≠ i → (j ∈ s.instances ↔ j ∈ (pollOneRec n s i ts).1.instances) := by
  have hne : s.instances ≠ [] := List.ne_nil_of_mem hmem
  by_cases hg : ((s.timers i).running = true ∧ (s.timers i).targetTime ≤ ts)
  · by_cases hrep : (s.timers i).«repeat» = true
    · -- natural completion of a repeating timer: restart, registry unchanged
      have hstate : (pollOneRec n s i ts).1
          = updateTimer (updateTimer s i fun t =>
              { t with running := t.«repeat», promise := t.promise.resolvePromise }) i
              fun t =>
                { t with startTime := t.targetTime, targetTime := t.targetTime + t.duration,
                         delay := t.duration, running := true } := by
        simp only [pollOneRec, completeRec, restartRec, updateTimer_timers, if_pos rfl, hg,
          if_true, hrep, and_self]
        rw [addInstance_of_mem _ _ (by simpa using hmem),
          startPollingRec_polling _ _ _ (by simpa using hp)]
        simp
      rw [hstate]
      exact ⟨⟨⟨fun _ => hne, fun _ => hp⟩, hnd⟩, fun j _ => Iff.rfl⟩
    · -- natural completion of a non-repeating timer: deregistered
      have hstate : (pollOneRec n s i ts).1
          = removeInstance (updateTimer s i fun t =>
              { t with running := t.«repeat», promise := t.promise.resolvePromise }) i := by
        simp only [pollOneRec, completeRec, updateTimer_timers, if_pos rfl, hg, if_true, hrep,
          false_and, if_false, Bool.false_eq_true]
        simp [hrep]
      rw [hstate]
      constructor
      · exact removeInstance_regInv _ _ ⟨⟨fun _ => hne, fun _ => hp⟩, hnd⟩
      · intro j hj
        simpa using (List.mem_erase_of_ne hj).symm
  · have hstate : pollOneRec n s i ts = (s, [Event.tick i]) := by
      simp only [pollOneRec]
      rw [if_neg hg]
    rw [hstate]
    exact ⟨⟨⟨fun _ => hne, fun _ => hp⟩, hnd⟩, fun j _ => Iff.rfl⟩

lemma pollListRec_regInv (n : Nat) :
    ∀ (l : List Nat) (s : SysState) (ts : ℚ),
      (∀ j ∈ l, j ∈ s.instances) → l.Nodup → RegInv s →
      RegInv ((pollListRec n s l ts).1)
  | [], s, ts, _, _, hinv => by simpa [pollListRec] using hinv
  | i :: rest, s, ts, hsub, hlnd, hinv => by
    simp only [pollListRec]
    have hmem : i ∈ s.instances := hsub i (by simp)
    have hp : s.polling = true := hinv.1.mpr (List.ne_nil_of_mem hmem)
    obtain ⟨hinv', hiff⟩ := pollOneRec_regInv n s i ts hp hmem hinv.2
    obtain ⟨hni, hrest⟩ := List.nodup_cons.mp hlnd
    refine pollListRec_regInv n rest _ ts ?_ hrest hinv'
    intro j hj
    exact (hiff j fun hji => hni (hji ▸ hj)).mp (hsub j (List.mem_cons_of_mem i hj))

lemma pollPassRec_regInv (n : Nat) (s : SysState) (ts : ℚ)
    (hne : s.instances ≠ []) (hnd : s.instances.Nodup) :
    RegInv ((pollPassRec n s ts).1) := by
  simp only [pollPassRec]
  exact pollListRec_regInv n s.instances _ ts (fun j hj => hj) hnd
    ⟨⟨fun _ => hne, fun _ => rfl⟩, hnd⟩

lemma startPollingRec_regInv (n : Nat) (s : SysState) (now : ℚ)
    (hne : s.instances ≠ []) (hnd : s.instances.Nodup) :
    RegInv ((startPollingRec (n + 1) s now).1) := by
  simp only [startPollingRec]
  split
  · next hp => exact ⟨⟨fun _ => hne, fun _ => hp⟩, hnd⟩
  · exact pollPassRec_regInv n s now hne hnd

lemma applyOp_regInv (s : SysState) (op : Op) (h : RegInv s) :
    RegInv ((applyOp s op).1) := by
  obtain ⟨hiff, hnd⟩ := h
  cases op with
  | start i now =>
    simp only [applyOp, start]
    split
    · exact ⟨hiff, hnd⟩
    · exact startPollingRec_regInv 2 _ now (addInstance_ne_nil _ _)
        (addInstance_nodup _ _ (by simpa using hnd))
  | stop i now =>
    simp only [applyOp, stop]
    split
    · exact removeInstance_regInv _ _ ⟨by simpa using hiff, by simpa using hnd⟩
    · exact ⟨hiff, hnd⟩
  | reset i now =>
    simp only [applyOp, reset]
    split <;> exact ⟨hiff, hnd⟩
  | complete i now =>
    simp only [applyOp, completeRec]
    split
    · simp only [restartRec]
      exact startPollingRec_regInv 2 _ now (addInstance_ne_nil _ _)
        (addInstance_nodup _ _ (by simpa using hnd))
    · exact ⟨hiff, hnd⟩
  | setDuration i d now =>
    simp only [applyOp, setDuration]
    split <;> exact ⟨hiff, hnd⟩
  | framePass ts =>
    simp only [applyOp]
    split
    · next hp => exact pollPassRec_regInv FUEL s ts (hiff.mp hp) hnd
    · exact ⟨hiff, hnd⟩

lemma runOps_regInv (s : SysState) (ops : List Op) (h : RegInv s) :
    RegInv ((runOps s ops).1) := by
  induction ops generalizing s with
  | nil => simpa [runOps] using h
  | cons op ops ih => simpa [runOps] using ih (applyOp s op).1 (applyOp_regInv s op h)

/-- C7 (amended): at every operation boundary of every operation sequence
from the pristine state, the poller's frame subscription is active iff the
registry is non-empty.  Polling begins with the first `start()` and stops
exactly when the instance set empties — which happens through `stop()` or
through poller-detected non-repeating completion; an externally forced
`complete()` does not deregister the timer (see `c7_counterexample`), so it
leaves both sides of the equivalence unchanged. -/
theorem c7_polling_iff_nonempty (tm : Nat → Timer) (ops : List Op) :
    ((runOps (initState tm) ops).1.polling = true ↔
      (runOps (initState tm) ops).1.instances ≠ []) :=
  (runOps_regInv (initState tm) ops ⟨by simp [initState], by simp [initState]⟩).1

end HighResTimeout

namespace HighResTimeout

/-- Evolution relation for C9: the promise identity never changes, and a
settlement, once made, persists (JS promises ignore later settlements). -/
def promiseEvolves (p q : PromiseState) : Prop :=
  q.promiseId = p.promiseId ∧ ∀ x, p.settled = some x → q.settled = some x

lemma promiseEvolves_refl (p : PromiseState) : promiseEvolves p p :=
  ⟨rfl, fun _ h => h⟩

lemma promiseEvolves_trans {p q r : PromiseState} (h1 : promiseEvolves p q)
    (h2 : promiseEvolves q r) : promiseEvolves p r :=
  ⟨h2.1.trans h1.1, fun x hx => h2.2 x (h1.2 x hx)⟩

lemma promiseEvolves_resolve (p : PromiseState) : promiseEvolves p p.resolvePromise := by
  unfold PromiseState.resolvePromise
  split
  · next hs => exact ⟨rfl, fun x hx => by rw [hs] at hx; cases hx⟩
  · exact promiseEvolves_refl p

lemma promiseEvolves_reject (p : PromiseState) : promiseEvolves p p.rejectPromise := by
  unfold PromiseState.rejectPromise
  split
  · next hs => exact ⟨rfl, fun x hx => by rw [hs] at hx; cases hx⟩
  · exact promiseEvolves_refl p

/-- Every timer's promise in `s2` evolves from its promise in `s`. -/
def timersEvolve (s s2 : SysState) : Prop :=
  ∀ j, promiseEvolves ((s.timers j).promise) ((s2.timers j).promise)

lemma timersEvolve_refl (s : SysState) : timersEvolve s s :=
  fun _ => promiseEvolves_refl _

lemma timersEvolve_trans {s1 s2 s3 : SysState} (h1 : timersEvolve s1 s2)
    (h2 : timersEvolve s2 s3) : timersEvolve s1 s3 :=
  fun j => promiseEvolves_trans (h1 j) (h2 j)

lemma timersEvolve_updateTimer (s : SysState) (i : Nat) (f : Timer → Timer)
    (hf : ∀ t : Timer, promiseEvolves t.promise (f t).promise) :
    timersEvolve s (updateTimer s i f) := by
  intro j
  simp only [updateTimer_timers]
  split
  · exact hf _
  · exact promiseEvolves_refl _

lemma timersEvolve_addInstance (s : SysState) (i : Nat) :
    timersEvolve s (addInstance s i) := by
  intro j; rw [addInstance_timers]; exact promiseEvolves_refl _

lemma timersEvolve_removeInstance (s : SysState) (i : Nat) :
    timersEvolve s (removeInstance s i) := by
  intro j; rw [removeInstance_timers]; exact promiseEvolves_refl _

lemma restartRec_timersEvolve (n : Nat)
    (ih : ∀ (s : SysState) (now : ℚ), timersEvolve s (startPollingRec n s now).1)
    (s : SysState) (i : Nat) (now : ℚ) :
    timersEvolve s (restartRec n s i now).1 := by
  simp only [restartRec]
  exact timersEvolve_trans
    (timersEvolve_updateTimer s i
      (fun t => { t with startTime := t.targetTime, targetTime := t.targetTime + t.duration,
                         delay := t.duration, running := true })
      fun t => promiseEvolves_refl t.promise)
    (timersEvolve_trans (timersEvolve_addInstance _ i) (ih _ now))

lemma completeRec_timersEvolve (n : Nat)
    (ih : ∀ (s : SysState) (now : ℚ), timersEvolve s (startPollingRec n s now).1)
    (s : SysState) (i : Nat) (now : ℚ) :
    timersEvolve s (completeRec n s i now).1 := by
  simp only [completeRec]
  split
  · exact timersEvolve_trans
      (timersEvolve_updateTimer s i
        (fun t => { t with running := t.«repeat», promise := t.promise.resolvePromise })
        fun t => promiseEvolves_resolve t.promise)
      (restartRec_timersEvolve n ih _ i now)
  · exact timersEvolve_updateTimer s i
      (fun t => { t with running := t.«repeat», promise := t.promise.resolvePromise })
      fun t => promiseEvolves_resolve t.promise

lemma pollOneRec_timersEvolve (n : Nat)
    (ih : ∀ (s : SysState) (now : ℚ), timersEvolve s (startPollingRec n s now).1)
    (s : SysState) (i : Nat) (ts : ℚ) :
    timersEvolve s (pollOneRec n s i ts).1 := by
  simp only [pollOneRec]
  split
  · split
    · exact completeRec_timersEvolve n ih s i ts
    · exact timersEvolve_trans (completeRec_timersEvolve n ih s i ts)
        (timersEvolve_removeInstance _ _)
  · exact timersEvolve_refl s

lemma pollListRec_timersEvolve (n : Nat)
    (ih : ∀ (s : SysState) (now : ℚ), timersEvolve s (startPollingRec n s now).1) :
    ∀ (l : List Nat) (s : SysState) (ts : ℚ), timersEvolve s (pollListRec n s l ts).1
  | [], s, ts => by
    simp only [pollListRec]
    exact timersEvolve_refl s
  | i :: rest, s, ts => by
    simp only [pollListRec]
    exact timersEvolve_trans (pollOneRec_timersEvolve n ih s i ts)
      (pollListRec_timersEvolve n ih rest _ ts)

lemma pollPassRec_timersEvolve (n : Nat)
    (ih : ∀ (s : SysState) (now : ℚ), timersEvolve s (startPollingRec n s now).1)
    (s : SysState) (ts : ℚ) :
    timersEvolve s (pollPassRec n s ts).1 := by
  simp only [pollPassRec]
  exact pollListRec_timersEvolve n ih _ _ ts

lemma startPollingRec_timersEvolve :
    ∀ (n : Nat) (s : SysState) (now : ℚ), timersEvolve s (startPollingRec n s now).1
  | 0, s, now => by
    simp only [startPollingRec]
    exact timersEvolve_refl s
  | Nat.succ n, s, now => by
    simp only [startPollingRec]
    split
    · exact timersEvolve_refl s
    · exact pollPassRec_timersEvolve n (startPollingRec_timersEvolve n) s now

lemma applyOp_timersEvolve (s : SysState) (op : Op) : timersEvolve s (applyOp s op).1 := by
  cases op with
  | start i now =>
    simp only [applyOp, start]
    split
    · exact timersEvolve_refl s
    · exact timersEvolve_trans
        (timersEvolve_updateTimer s i
          (fun t => { t with startTime := now, targetTime := now + t.delay, running := true })
          fun t => promiseEvolves_refl t.promise)
        (timersEvolve_trans (timersEvolve_addInstance _ i)
          (startPollingRec_timersEvolve FUEL _ now))
  | stop i now =>
    simp only [applyOp, stop]
    split
    · exact timersEvolve_trans
        (timersEvolve_updateTimer s i
          (fun t => { t with delay := t.duration - (now - t.startTime) })
          fun t => promiseEvolves_refl t.promise)
        (timersEvolve_trans (timersEvolve_removeInstance _ i)
          (timersEvolve_updateTimer _ i
            (fun t => { t with running := false, promise := t.promise.rejectPromise })
            fun t => promiseEvolves_reject t.promise))
    · exact timersEvolve_refl s
  | reset i now =>
    simp only [applyOp, reset]
    split
    · exact timersEvolve_trans
        (timersEvolve_updateTimer s i
          (fun t => { t with delay := t.duration, targetTime := now + t.duration })
          fun t => promiseEvolves_refl t.promise)
        (timersEvolve_updateTimer _ i (fun t => { t with startTime := now })
          fun t => promiseEvolves_refl t.promise)
    · exact timersEvolve_updateTimer s i
        (fun t => { t with delay := t.duration, targetTime := now + t.duration })
        fun t => promiseEvolves_refl t.promise
  | complete i now =>
    exact completeRec_timersEvolve FUEL (startPollingRec_timersEvolve FUEL) s i now
  | setDuration i d now =>
    simp only [applyOp, setDuration]
    split
    · exact timersEvolve_trans
        (timersEvolve_updateTimer s i (fun t => { t with duration := d, delay := d })
          fun t => promiseEvolves_refl t.promise)
        (timersEvolve_updateTimer _ i
          (fun t => { t with delay := d - (now - t.startTime),
                             targetTime := now + (d - (now - t.startTime)) })
          fun t => promiseEvolves_refl t.promise)
    · exact timersEvolve_updateTimer s i (fun t => { t with duration := d, delay := d })
        fun t => promiseEvolves_refl t.promise
  | framePass ts =>
    simp only [applyOp]
    split
    · exact pollPassRec_timersEvolve FUEL (startPollingRec_timersEvolve FUEL) s ts
    · exact timersEvolve_refl s

lemma runOps_timersEvolve (s : SysState) (ops : List Op) :
    timersEvolve s (runOps s ops).1 := by
  induction ops generalizing s with
  | nil =>
    simp only [runOps]
    exact timersEvolve_refl s
  | cons op ops ih =>
    simp only [runOps]
    exact timersEvolve_trans (applyOp_timersEvolve s op) (ih (applyOp s op).1)

/-- C9: no operation sequence (start, stop, reset, external complete,
duration assignment, polling passes — including repeat restarts) ever
replaces the completion-signal object created in the constructor: the
promise identity is unchanged, and once the promise is settled (earliest
fulfillment or rejection) every later re-settlement is a no-op, so at most
the first settlement is observable. -/
theorem c9_promise_persistent (s : SysState) (ops : List Op) (i : Nat) (x : Settlement) :
    ((runOps s ops).1.timers i).promise.promiseId = (s.timers i).promise.promiseId ∧
    ((s.timers i).promise.settled = some x →
      ((runOps s ops).1.timers i).promise.settled = some x) :=
  ⟨(runOps_timersEvolve s ops i).1, fun h => (runOps_timersEvolve s ops i).2 x h⟩

/-- A state whose timer 0 carries an already-rejected promise (as after a
`stop()`), used by the C9 witness. -/
def witSettled : SysState :=
  { timers := fun j =>
      { newTimer 50 false j with
          promise := { promiseId := 7, settled := some Settlement.rejected } },
    instances := [], polling := false, tickTimestamp := 0 }

/-- Witness for C9: starting and force-completing the timer re-settles the
already-rejected promise; identity and first settlement survive. -/
theorem c9_witness :
    (witSettled.timers 0).promise.settled = some Settlement.rejected ∧
    (((runOps witSettled [Op.start 0 0, Op.complete 0 60]).1.timers 0).promise.promiseId
        = (witSettled.timers 0).promise.promiseId ∧
     ((runOps witSettled [Op.start 0 0, Op.complete 0 60]).1.timers 0).promise.settled
        = some Settlement.rejected) := by
  have h := c9_promise_persistent witSettled [Op.start 0 0, Op.complete 0 60] 0
    Settlement.rejected
  exact ⟨rfl, h.1, h.2 rfl⟩

end HighResTimeout
